import Mathlib

/-!
Verification of the AI-Agents content-generation pipeline.

The Python source is embedded shallowly: pure string processing becomes
Lean functions over `String` (viewed as its list of characters), fallible
collaborator calls (language-model invocations, MongoDB writes) become
`Except`-valued or `Bool`-valued environment parameters, and the MongoDB
topic record becomes an explicit record value threaded through the
orchestration functions.  Wall-clock timestamps and generated object ids
are treated as opaque inputs.
-/

set_option maxRecDepth 20000

namespace AIAgents

/-! ## Python string primitives

Counterparts of the exact Python `str` methods the embedded code uses:
`split("\n")`, `strip()`, `strip(chars)`, `lstrip(chars)`, `startswith`,
`endswith`, `lower`, and the `in` substring test. -/

/-- The whitespace characters stripped by Python's `str.strip()` (ASCII). -/
def pySpace : List Char := [' ', '\t', '\n', '\x0b', '\x0c', '\r']

/-- Python `s.lstrip(cs)`: drop leading characters belonging to `cs`. -/
def pyLstrip (cs : List Char) (s : String) : String :=
  ⟨s.data.dropWhile (fun c => cs.contains c)⟩

/-- Python `s.rstrip(cs)`: drop trailing characters belonging to `cs`. -/
def pyRstrip (cs : List Char) (s : String) : String :=
  ⟨(s.data.reverse.dropWhile (fun c => cs.contains c)).reverse⟩

/-- Python `s.strip(cs)`: drop characters of `cs` from both ends. -/
def pyStripChars (cs : List Char) (s : String) : String :=
  pyRstrip cs (pyLstrip cs s)

/-- Python `s.strip()` (whitespace on both ends). -/
def pyStrip (s : String) : String := pyStripChars pySpace s

/-- Python `s.startswith(p)`. -/
def pyStartsWith (p s : String) : Bool := p.data.isPrefixOf s.data

/-- Python `s.endswith(p)`. -/
def pyEndsWith (p s : String) : Bool := p.data.isSuffixOf s.data

/-- Python `s.lower()` (character-wise). -/
def pyLower (s : String) : String := ⟨s.data.map Char.toLower⟩

/-- Python `needle in hay` for strings (substring test). -/
def pyContains (needle hay : String) : Bool := decide (needle.data <:+: hay.data)

/-- Splitting a character list on a separator character, Python style:
the empty input yields one empty field, and a trailing separator yields a
trailing empty field. -/
def splitOnChar (c : Char) : List Char → List (List Char)
  | [] => [[]]
  | x :: xs =>
    if x = c then [] :: splitOnChar c xs
    else
      match splitOnChar c xs with
      | [] => [[x]]
      | h :: t => (x :: h) :: t

/-- Python `s.split("\n")`. -/
def pySplitNL (s : String) : List String :=
  (splitOnChar '\n' s.data).map (fun l => ⟨l⟩)

/-- Flattening concatenation map; counterpart of a loop whose body extends
an accumulator with a per-element block of lines. -/
def concatMap (f : α → List β) : List α → List β
  | [] => []
  | x :: xs => f x ++ concatMap f xs

/-- Python-style `enumerate(l, n)`. -/
def pyEnumerate (n : Nat) : List α → List (Nat × α)
  | [] => []
  | x :: xs => (n, x) :: pyEnumerate (n + 1) xs

/-! ## Bullet-point parsing (AnalysisAgent.execute_analysis)

Embeds the response-processing loop of
`src/services/agent_service/analysis_agent.py`, lines 81-104: split the
model response on newlines, accept a line as a bullet when (stripped) it
is non-empty and starts with `-` or `•` and stripping the leading markers
leaves text; if no bullets were accepted, fall back to every non-empty
stripped line; if still empty, use the fixed placeholder. -/

def bulletMarkers : List Char := ['-', '•']

def bulletPlaceholder : String :=
  "No specific insights could be generated from the analysis"

/-- The accepting `for`-loop of `execute_analysis` (lines 85-91). -/
def acceptedBullets (rawPoints : List String) : List String :=
  rawPoints.foldl
    (fun acc point =>
      let p := pyStrip point
      if !p.isEmpty && (pyStartsWith "-" p || pyStartsWith "•" p) then
        let clean := pyStrip (pyLstrip bulletMarkers p)
        if !clean.isEmpty then acc ++ [clean] else acc
      else acc)
    []

/-- Fallback used when no bullets parse: every non-empty stripped line
(line 98, a list comprehension over the raw lines). -/
def nonEmptyStrippedLines (rawPoints : List String) : List String :=
  rawPoints.filterMap (fun p =>
    let t := pyStrip p
    if t.isEmpty then none else some t)

/-- Full bullet parsing of a model response (lines 82-104). -/
def parseBulletPoints (content : String) : List String :=
  let rawPoints := pySplitNL content
  let bulletPoints := acceptedBullets rawPoints
  let bulletPoints :=
    if bulletPoints.isEmpty then nonEmptyStrippedLines rawPoints else bulletPoints
  if bulletPoints.isEmpty then [bulletPlaceholder] else bulletPoints

/-- Modelled from the spec words of the claim, for comparison with the
code: "a line is a bullet iff, after trimming, it starts with `-` or `•`,
and leading bullet markers are stripped from accepted lines". -/
def specBulletAccept (line : String) : Option String :=
  let p := pyStrip line
  if pyStartsWith "-" p || pyStartsWith "•" p then
    some (pyStrip (pyLstrip bulletMarkers p))
  else none

/-- Modelled from the spec words of the claim: full parse under the
claimed per-line rule, with the fallback and placeholder stages. -/
def specParseBulletPoints (content : String) : List String :=
  let rawPoints := pySplitNL content
  let bulletPoints := rawPoints.filterMap specBulletAccept
  let bulletPoints :=
    if bulletPoints.isEmpty then nonEmptyStrippedLines rawPoints else bulletPoints
  if bulletPoints.isEmpty then [bulletPlaceholder] else bulletPoints

/-- The per-line acceptance rule the code actually implements: trimmed
line starts with a bullet marker AND stripping markers and whitespace
leaves non-empty text. -/
def codeBulletAccept (line : String) : Option String :=
  let p := pyStrip line
  let clean := pyStrip (pyLstrip bulletMarkers p)
  if (!p.isEmpty && (pyStartsWith "-" p || pyStartsWith "•" p)) && !clean.isEmpty then
    some clean
  else none

/-! ## Question generation (CollectionAgent.generate_questions)

Embeds `src/services/agent_service/collection_agent.py`, lines 164-289.
The language-model call is an `Except`-valued input (it may throw); the
per-question MongoDB save is a `Bool`-valued outcome (a failing save is
caught and the question dropped). -/

def interrogativeWords : List String :=
  ["?", "how", "what", "why", "when", "where", "which"]

/-- Characters removed by the numbering strip of line 262. -/
def enumStripChars : List Char :=
  ['0', '1', '2', '3', '4', '5', '6', '7', '8', '9', '.', '-', ' ']

/-- Lines 256-262: strip, force a trailing question mark, then strip
leading numbering. -/
def cleanQuestion (question : String) : String :=
  pyLstrip enumStripChars
    (if pyEndsWith "?" (pyStrip question) then pyStrip question
     else pyStrip question ++ "?")

/-- Lines 250-253: skip a candidate unless it is non-empty and mentions
an interrogative marker (checked on the lowercased text). -/
def questionAccepted (question : String) : Bool :=
  !question.isEmpty &&
    interrogativeWords.any (fun q => pyContains q (pyLower question))

/-- Lines 284-288: the fixed fallback on total failure. -/
def defaultQuestions : List String :=
  ["How might current market events across Africa impact the adoption of digital financial services?",
   "What opportunities for digital innovation emerge from recent developments in different African regions?",
   "How should financial institutions adapt their services to address emerging challenges across Africa?"]

/-- Lines 232-234: split the response, keep stripped non-empty lines. -/
def rawQuestionLines (content : String) : List String :=
  (pySplitNL content).filterMap (fun q =>
    if (pyStrip q).isEmpty then none else some (pyStrip q))

/-- The processing loop of lines 247-277; `saveOk` tells whether the
MongoDB save of a given cleaned question succeeds. -/
def processQuestionsLoop (saveOk : String → Bool) (rawQuestions : List String) : List String :=
  rawQuestions.foldl
    (fun acc question =>
      if questionAccepted question then
        if saveOk (cleanQuestion question) then acc ++ [cleanQuestion question] else acc
      else acc)
    []

/-- `CollectionAgent.generate_questions`: on any model-call failure the
outer handler returns the fixed fallback list (lines 282-289). -/
def generate_questions (saveOk : String → Bool) (modelResult : Except String String) :
    List String :=
  match modelResult with
  | .ok content => processQuestionsLoop saveOk (rawQuestionLines content)
  | .error _ => defaultQuestions

/-- A question is normalized when it ends with a question mark and its
first character is not an enumeration character. -/
def normalizedQuestion (q : String) : Bool :=
  pyEndsWith "?" q &&
    (q.data.head?.elim false (fun c => !enumStripChars.contains c))

/-- The acceptance function implemented by the question-processing loop. -/
def questionLoopAccept (saveOk : String → Bool) (question : String) : Option String :=
  if questionAccepted question && saveOk (cleanQuestion question) then
    some (cleanQuestion question)
  else none

/-! ## Data collection (CollectionAgent.collect_data)

Embeds `src/services/agent_service/collection_agent.py`, lines 45-162.
External effects become environment fields: the pending-topic lookup, the
two fetch tools, the per-article `save_news` outcome, the
`save_generation_log` outcome, the `update_search_topic_status` outcome
(keyed by the status being written — this call can itself throw), and the
two `uuid.uuid4()` draws.  The second component of the result is the
sequence of statuses successfully written to the adopted Topic record. -/

structure ArticleRec where
  headline? : Option String
  url? : Option String
  source? : Option String
  summary? : Option String
deriving DecidableEq

/-- An element of the fetched article list: a dict or something else
(the code skips non-dict entries via `isinstance`). -/
inductive ArticleItem where
  | dict (a : ArticleRec)
  | nonDict (text : String)
deriving DecidableEq

structure PendingTopic where
  topic : String
  id : String
deriving DecidableEq

structure CollectEnv where
  pending : List PendingTopic
  fetchTopic : String → Except String (List ArticleItem)
  fetchGeneral : Except String (List ArticleItem)
  saveNewsOk : ArticleRec → Bool
  saveLog : Except String Unit
  updateStatus : String → Except String Unit
  uuid1 : String
  uuid2 : String

/-- Python truthiness of an optional string. -/
def strTruthy : Option String → Bool
  | none => false
  | some s => !s.isEmpty

/-- Lines 53-64: resolve the topic and topic id, adopting the first
pending topic when none was passed. -/
def resolveTopic (env : CollectEnv) (topicArg : Option String) :
    Option String × Option String :=
  match topicArg with
  | some t => (some t, none)
  | none =>
    match env.pending with
    | td :: _ => (some td.topic, some td.id)
    | [] => (none, none)

/-- Lines 67-72: topic-scoped search when the topic is truthy, general
feed otherwise. -/
def fetchArticles (env : CollectEnv) (topic : Option String) :
    Except String (List ArticleItem) :=
  if strTruthy topic then env.fetchTopic ((topic).getD "") else env.fetchGeneral

/-- Lines 83-102: persist each dict-shaped article; save failures are
caught and the article is simply not recorded as saved. -/
def savedArticles (env : CollectEnv) (articles : List ArticleItem) : List ArticleRec :=
  articles.foldl
    (fun acc a =>
      match a with
      | .dict r => if env.saveNewsOk r then acc ++ [r] else acc
      | .nonDict _ => acc)
    []

/-- Line 107: the success message. -/
def collectMessage (topic : Option String) (saved : List ArticleRec) : String :=
  "Collected " ++ toString saved.length ++ " articles about " ++
    (if strTruthy topic then (topic).getD "" else "various topics") ++ " from " ++
    toString ((saved.map (fun a => (a.source?).getD "")).dedup.length) ++ " sources"

structure CollectOutput where
  output : List ArticleRec
  message : String
  articles : List ArticleRec
deriving DecidableEq

/-- Lines 146-149: the inner `except` handler — on a log/status failure,
set the adopted topic to failed; this status write is itself unguarded. -/
def handleInnerFail (env : CollectEnv) (hasTid : Bool) : Except String Unit × List String :=
  if hasTid then
    match env.updateStatus "failed" with
    | .ok _ => (.ok (), ["failed"])
    | .error e2 => (.error e2, [])
  else (.ok (), [])

/-- Lines 114-149: the inner `try` saving the generation log and, for an
adopted topic, writing status "completed". -/
def innerLogBlock (env : CollectEnv) (hasTid : Bool) : Except String Unit × List String :=
  match env.saveLog with
  | .ok _ =>
    if hasTid then
      match env.updateStatus "completed" with
      | .ok _ => (.ok (), ["completed"])
      | .error _ => handleInnerFail env hasTid
    else (.ok (), [])
  | .error _ => handleInnerFail env hasTid

/-- The body of the outer `try` of `collect_data` (lines 55-152). -/
def collectTryBody (env : CollectEnv) (topic topic_id : Option String) :
    Except String (String × CollectOutput) × List String :=
  let hasTid := strTruthy topic && strTruthy topic_id
  match fetchArticles env topic with
  | .error e => (.error e, [])
  | .ok articles =>
    let saved := savedArticles env articles
    let out : CollectOutput :=
      { output := saved, message := collectMessage topic saved, articles := saved }
    let lr := innerLogBlock env hasTid
    match lr.1 with
    | .ok _ => (.ok (env.uuid1, out), lr.2)
    | .error e => (.error e, lr.2)

/-- The outer `except` handler of `collect_data` (lines 154-162).  The
status write for an adopted topic is unguarded, so a throwing
`update_search_topic_status` escapes (`Except.error`). -/
def collectHandler (env : CollectEnv) (hasTid : Bool)
    (body : Except String (String × CollectOutput) × List String) :
    Except String (String × CollectOutput) × List String :=
  match body.1 with
  | .ok r => (.ok r, body.2)
  | .error e =>
    if hasTid then
      match env.updateStatus "failed" with
      | .ok _ =>
        (.ok (env.uuid2,
          { output := [], message := "Error collecting data: " ++ e, articles := [] }),
          body.2 ++ ["failed"])
      | .error e2 => (.error e2, body.2)
    else
      (.ok (env.uuid2,
        { output := [], message := "Error collecting data: " ++ e, articles := [] }),
        body.2)

/-- `CollectionAgent.collect_data`: outer `try`/`except` (lines 45-162). -/
def collect_data (env : CollectEnv) (topicArg : Option String) :
    Except String (String × CollectOutput) × List String :=
  collectHandler env
    (strTruthy (resolveTopic env topicArg).1 && strTruthy (resolveTopic env topicArg).2)
    (collectTryBody env (resolveTopic env topicArg).1 (resolveTopic env topicArg).2)

/-! ## Topic lifecycle (main.py process_topic)

Embeds `src/main.py`, lines 85-133 and the record creation of
`save_search_topic_to_mongodb` (`src/services/orchestration/tools/mongo.py`,
lines 712-734).  The workflow call is an `Except`-valued input; the store
is the single Topic record of this run (created at submission), updated
in place; `reread` is the result of the verification `find_one`, a
function of the record as just written so that both the faithful
consistent store and a disturbed store can be expressed. -/

structure TopicRec where
  topic : String
  status : String
  collection_id : Option String
  error : Option String
  result : Option String
deriving DecidableEq

/-- `save_search_topic_to_mongodb`: a fresh record starts "pending". -/
def save_search_topic (topic : String) : TopicRec :=
  { topic := topic, status := "pending", collection_id := none, error := none,
    result := none }

/-- The patch applied by the success-path update (main.py lines 98-108). -/
def applyCompletedPatch (cid : String) (r : TopicRec) : TopicRec :=
  { r with
    status := "completed"
    collection_id := some cid
    result := some "Analysis completed successfully" }

/-- The patch applied by the failure-path update (main.py lines 123-132). -/
def applyFailedPatch (msg : String) (r : TopicRec) : TopicRec :=
  { r with
    status := "failed"
    error := some msg }

structure ProcResult where
  outcome : Except String Unit
  record : TopicRec
  writes : List String

/-- The `except` handler of `process_topic`: write status failed with the
error message, then re-raise. -/
def processTopicFailPath (msg : String) (rec : TopicRec) : ProcResult :=
  { outcome := .error msg, record := applyFailedPatch msg rec, writes := ["failed"] }

/-- `process_topic` (main.py lines 85-133): run the workflow, write
status completed, re-read to verify, and on any exception write status
failed and re-raise.  `wf` is the outcome of `run_analysis_workflow`;
`reread` is what the verification `find_one` returns given the record as
just updated. -/
def process_topic (wf : Except String String) (reread : TopicRec → Option TopicRec)
    (rec0 : TopicRec) : ProcResult :=
  match wf with
  | .error e => processTopicFailPath e rec0
  | .ok cid =>
    if cid.isEmpty then
      processTopicFailPath "Analysis workflow did not return a collection ID" rec0
    else
      let rec1 := applyCompletedPatch cid rec0
      match reread rec1 with
      | some ut =>
        if ut.status ≠ "completed" then
          let pr := processTopicFailPath "Failed to update topic status" rec1
          { pr with writes := "completed" :: pr.writes }
        else { outcome := .ok (), record := rec1, writes := ["completed"] }
      | none => { outcome := .ok (), record := rec1, writes := ["completed"] }

/-- The faithful single-writer document store: the verification
`find_one` returns the record exactly as just written. -/
def consistentReread : TopicRec → Option TopicRec := fun r => some r

/-! ## Answer plans (AnalysisAgent.create_answer_plan)

Embeds `src/services/agent_service/analysis_agent.py`, lines 26-57.  The
prompt is built from the question alone; the version number only tags the
persisted record; the save is guarded (a failure is caught and logged). -/

/-- The f-string of lines 28-37: a function of the question only. -/
def answerPlanPrompt (question : String) : String :=
  "\n        Create a detailed analysis plan to answer the following question:\n        "
    ++ question ++
    "\n        \n        The plan should:\n        1. Outline specific data sources to analyze\n        2. Define key metrics and indicators to examine\n        3. Specify analytical approaches and methodologies\n        4. Consider potential challenges and limitations\n        "

structure AnswerPlan where
  plan_id : String
  prompt : String
  plan_text : String
  version : Nat
  saved : Bool

/-- `create_answer_plan`: build the prompt from the question, invoke the
model, attempt the save (non-fatal on failure), return id and text. -/
def create_answer_plan (llm : String → String) (saveOk : Bool) (plan_id question : String)
    (version : Nat) : AnswerPlan :=
  { plan_id := plan_id
    prompt := answerPlanPrompt question
    plan_text := llm (answerPlanPrompt question)
    version := version
    saved := saveOk }

/-- The f-string of `ReviewAgent.provide_feedback` (review_agent.py lines
28-39): a function of the plan text only. -/
def feedbackPrompt (plan_text : String) : String :=
  "\n        Review the following analysis plan and provide constructive feedback:\n        "
    ++ plan_text ++
    "\n        \n        Consider:\n        1. Comprehensiveness of the approach\n        2. Potential gaps or blind spots\n        3. Methodological rigor\n        4. Additional perspectives or data sources to consider\n        \n        Format your feedback as specific, actionable suggestions.\n        "

/-- `ReviewAgent.provide_feedback`: invoke the model on the feedback
prompt; the save is guarded, the text is returned regardless. -/
def provide_feedback (llm : String → String) (plan_text : String) : String :=
  llm (feedbackPrompt plan_text)

/-! ## Analysis execution (AnalysisAgent.execute_analysis)

Lines 59-137: the whole body sits in a `try`; the model response is
parsed with `parseBulletPoints`; on any exception the fixed two-line
default is returned; the result save is guarded in both paths.  The
function therefore never raises. -/

def executeAnalysisDefaultPoints : List String :=
  ["Analysis could not be completed due to an error",
   "Please review the analysis plan and try again"]

def execute_analysis (analysisResp : Except String String) : List String :=
  match analysisResp with
  | .ok content => parseBulletPoints content
  | .error _ => executeAnalysisDefaultPoints

/-! ## The per-question loop (run_analysis.run_analysis_workflow)

Embeds `src/services/agent_service/run_analysis.py`, lines 76-156.  Per
question the loop saves the question, drafts a plan (model call outside
any guard in `create_answer_plan`), obtains feedback (likewise), drafts
the version-2 plan, and executes the analysis; any exception among these
is caught by the per-question handler and the loop continues. -/

structure QuestionEnv where
  saveQuestion : Except String Unit
  planV1Resp : Except String String
  planV1SaveOk : Bool
  feedbackResp : Except String String
  feedbackSaveOk : Bool
  planV2Resp : Except String String
  planV2SaveOk : Bool
  analysisResp : Except String String
  finalSaveOk : Bool

/-- The fallible part of the loop body (lines 91-134): question save and
the three unguarded model invocations; `execute_analysis` never raises. -/
def processQuestionBody (env : QuestionEnv) : Except String (List String) := do
  let _ ← env.saveQuestion
  let _ ← env.planV1Resp
  let _ ← env.feedbackResp
  let _ ← env.planV2Resp
  pure (execute_analysis env.analysisResp)

/-- What one enumerated question adds to the running findings list
(lines 85-156): nothing when the question text is invalid or when the
body raised; otherwise the header lines, the findings and a spacer. -/
def questionContribution (p : Nat × (String × QuestionEnv)) : List String :=
  if p.2.1.isEmpty then []
  else
    match processQuestionBody p.2.2 with
    | .ok bullets =>
      ("\nQuestion " ++ toString p.1 ++ ": " ++ p.2.1) :: "Findings:" :: (bullets ++ ["\n"])
    | .error _ => []

/-- The loop over the enumerated questions accumulating the findings
list (lines 76-156). -/
def run_questions (qs : List (String × QuestionEnv)) : List String :=
  (pyEnumerate 1 qs).foldl
    (fun acc p =>
      if p.2.1.isEmpty then acc
      else
        match processQuestionBody p.2.2 with
        | .ok bullets =>
          acc ++ (("\nQuestion " ++ toString p.1 ++ ": " ++ p.2.1) ::
            "Findings:" :: (bullets ++ ["\n"]))
        | .error _ => acc)
    []

/-! ## French blog persistence (mongo.save_french_blog_to_mongodb)

Embeds `src/services/orchestration/tools/mongo.py`, lines 759-805.
Heading extraction walks the lines of the content, collecting every line
that starts with `#`, stripped of `#` and space characters on both ends
(Python `line.strip("# ")`). -/

def headingStripChars : List Char := ['#', ' ']

/-- The heading-extraction loop (lines 777-780). -/
def extractHeadings (content : String) : List String :=
  (pySplitNL content).foldl
    (fun acc line =>
      if pyStartsWith "#" line then acc ++ [pyStripChars headingStripChars line]
      else acc)
    []

structure BlogTitle where
  original : String
  french : String
deriving DecidableEq

structure BlogMetadata where
  has_headings : Bool
  heading_count : Nat
deriving DecidableEq

structure FrenchBlogDoc where
  collection_id : String
  title : BlogTitle
  content : String
  headings : List String
  status : String
  metadata : BlogMetadata
deriving DecidableEq

/-- The document built and inserted by `save_french_blog_to_mongodb`
(lines 782-801); timestamps omitted. -/
def save_french_blog (collection_id blog_content blog_title : String) : FrenchBlogDoc :=
  { collection_id := collection_id
    title :=
      { original := blog_title
        french :=
          if pyStartsWith "Analyse:" blog_title then blog_title
          else "Analyse: " ++ blog_title }
    content := blog_content
    headings := extractHeadings blog_content
    status := "draft"
    metadata :=
      { has_headings := decide ((extractHeadings blog_content).length > 0)
        heading_count := (extractHeadings blog_content).length } }

/-! ## Tip-sheet persistence (mongo.save_tip_sheet_to_mongodb)

Lines 190-218: a guard rejects any `parent_type` outside the fixed
enumeration by printing and returning `None` before the insert; the
function returns `None` on the success path too. -/

def validTipSheetParentTypes : List String := ["news", "nominations", "insights", "topics"]

structure TipSheetDoc where
  id : String
  parent_id : String
  parent_type : String
  final_bullet_points : List String
deriving DecidableEq

structure SaveTipSheetResult where
  inserted : Option TipSheetDoc
  returned : Option Unit
deriving DecidableEq

def save_tip_sheet_to_mongodb (id parent_id parent_type : String)
    (final_bullet_points : List String) : SaveTipSheetResult :=
  if !(validTipSheetParentTypes.contains parent_type) then
    { inserted := none, returned := none }
  else
    { inserted := some
        { id := id
          parent_id := parent_id
          parent_type := parent_type
          final_bullet_points := final_bullet_points }
      returned := none }

/-- The default `parent_type` of `ReviewAgent.generate_tip_sheet`
(review_agent.py line 58). -/
def generateTipSheetDefaultParentType : String := "analysis"

/-! ## Concrete environments used by witnesses and counterexamples -/

/-- A collection environment where the fetch throws and every Topic
status update also throws. -/
def collectFailEnv : CollectEnv :=
  { pending := [{ topic := "t", id := "id1" }]
    fetchTopic := fun _ => .error "boom"
    fetchGeneral := .error "boom"
    saveNewsOk := fun _ => true
    saveLog := .ok ()
    updateStatus := fun _ => .error "db down"
    uuid1 := "uuid-1"
    uuid2 := "uuid-2" }

/-- A collection environment where the fetch throws but the document
store is healthy. -/
def collectOkEnv : CollectEnv :=
  { pending := []
    fetchTopic := fun _ => .error "net down"
    fetchGeneral := .error "net down"
    saveNewsOk := fun _ => true
    saveLog := .ok ()
    updateStatus := fun _ => .ok ()
    uuid1 := "u1"
    uuid2 := "u2" }

/-- A per-question environment in which every step succeeds. -/
def qEnvOk : QuestionEnv :=
  { saveQuestion := .ok ()
    planV1Resp := .ok "p1"
    planV1SaveOk := true
    feedbackResp := .ok "fb"
    feedbackSaveOk := true
    planV2Resp := .ok "p2"
    planV2SaveOk := true
    analysisResp := .ok "- f1"
    finalSaveOk := true }

/-- A per-question environment whose first plan-drafting model call
throws. -/
def qEnvFail : QuestionEnv :=
  { qEnvOk with planV1Resp := .error "model down" }

/-! ## Helper lemmas -/

theorem concatMap_append (f : α → List β) (l₁ l₂ : List α) :
    concatMap f (l₁ ++ l₂) = concatMap f l₁ ++ concatMap f l₂ := by
  induction l₁ with
  | nil => simp [concatMap]
  | cons x xs ih => simp [concatMap, ih]

theorem foldl_step_append (g : List β → α → List β) (f : α → List β)
    (hg : ∀ acc x, g acc x = acc ++ f x) :
    ∀ (l : List α) (acc : List β), l.foldl g acc = acc ++ concatMap f l := by
  intro l
  induction l with
  | nil => intro acc; simp [concatMap]
  | cons x xs ih =>
    intro acc
    rw [List.foldl_cons, hg, ih, concatMap]
    simp

theorem foldl_opt_append (g : List β → α → List β) (f : α → Option β)
    (hg : ∀ acc x, g acc x = acc ++ (f x).toList) :
    ∀ (l : List α) (acc : List β), l.foldl g acc = acc ++ l.filterMap f := by
  intro l
  induction l with
  | nil => intro acc; simp
  | cons x xs ih =>
    intro acc
    rw [List.foldl_cons, hg, ih, List.filterMap_cons]
    cases f x <;> simp [Option.toList]

theorem pyEnumerate_append (n : Nat) (l₁ l₂ : List α) :
    pyEnumerate n (l₁ ++ l₂) = pyEnumerate n l₁ ++ pyEnumerate (n + l₁.length) l₂ := by
  induction l₁ generalizing n with
  | nil => simp [pyEnumerate]
  | cons x xs ih =>
    have h : n + 1 + xs.length = n + (xs.length + 1) := by omega
    calc pyEnumerate n ((x :: xs) ++ l₂)
        = (n, x) :: pyEnumerate (n + 1) (xs ++ l₂) := rfl
      _ = (n, x) :: (pyEnumerate (n + 1) xs ++ pyEnumerate (n + 1 + xs.length) l₂) := by
            rw [ih]
      _ = pyEnumerate n (x :: xs) ++ pyEnumerate (n + (x :: xs).length) l₂ := by
            rw [h]; rfl

theorem filterMap_ite (p : α → Bool) (g : α → β) (l : List α) :
    l.filterMap (fun x => if p x then some (g x) else none) = (l.filter p).map g := by
  induction l with
  | nil => rfl
  | cons x xs ih => cases hp : p x <;> simp [List.filterMap_cons, List.filter_cons, hp, ih]

theorem acceptedBullets_eq_filterMap (rawPoints : List String) :
    acceptedBullets rawPoints = rawPoints.filterMap codeBulletAccept := by
  have h := foldl_opt_append
    (fun acc point =>
      let p := pyStrip point
      if !p.isEmpty && (pyStartsWith "-" p || pyStartsWith "•" p) then
        let clean := pyStrip (pyLstrip bulletMarkers p)
        if !clean.isEmpty then acc ++ [clean] else acc
      else acc)
    codeBulletAccept
    (by
      intro acc x
      simp only [codeBulletAccept]
      cases h1 : (!(pyStrip x).isEmpty && (pyStartsWith "-" (pyStrip x) || pyStartsWith "•" (pyStrip x))) <;>
        cases h2 : (!(pyStrip (pyLstrip bulletMarkers (pyStrip x))).isEmpty) <;>
          simp [h1, h2, Option.toList])
  exact h rawPoints []

theorem string_data_append (s t : String) : (s ++ t).data = s.data ++ t.data := by
  cases s; cases t; rfl

theorem singleton_isPrefixOf_eq (c : Char) (l : List Char) :
    ([c].isPrefixOf l) = (l.head? == some c) := by
  cases l with
  | nil => rfl
  | cons x xs => simp [List.isPrefixOf, eq_comm]

theorem pyEndsWithQ_iff (s : String) :
    pyEndsWith "?" s = true ↔ s.data.getLast? = some '?' := by
  show (['?'].isPrefixOf s.data.reverse) = true ↔ _
  rw [singleton_isPrefixOf_eq, List.head?_reverse]
  simp

theorem dropWhile_keeps_last {α : Type} (p : α → Bool) (a : α) (hpa : p a = false) :
    ∀ l : List α, l.getLast? = some a →
      ((l.dropWhile p).getLast? = some a ∧
        ∀ c, (l.dropWhile p).head? = some c → p c = false) := by
  intro l
  induction l with
  | nil => intro h; simp at h
  | cons x xs ih =>
    intro h
    cases hx : p x with
    | true =>
      have hd : (x :: xs).dropWhile p = xs.dropWhile p := by
        simp [List.dropWhile_cons, hx]
      rw [hd]
      apply ih
      cases xs with
      | nil =>
        have hxa : x = a := by simpa using h
        rw [hxa, hpa] at hx
        simp at hx
      | cons y ys => rw [List.getLast?_cons_cons] at h; exact h
    | false =>
      have hd : (x :: xs).dropWhile p = x :: xs := by
        simp [List.dropWhile_cons, hx]
      rw [hd]
      refine ⟨h, ?_⟩
      intro c hc
      rw [List.head?_cons] at hc
      injection hc with hc
      rw [← hc]
      exact hx

theorem normalizedQuestion_of (q : String) (h1 : q.data.getLast? = some '?')
    (h2 : ∀ c, q.data.head? = some c → enumStripChars.contains c = false) :
    normalizedQuestion q = true := by
  unfold normalizedQuestion
  rw [Bool.and_eq_true]
  refine ⟨(pyEndsWithQ_iff q).mpr h1, ?_⟩
  cases hq : q.data with
  | nil => rw [hq] at h1; simp at h1
  | cons x xs =>
    have hx := h2 x (by rw [hq]; rfl)
    show (!enumStripChars.contains x) = true
    rw [hx]
    rfl

theorem cleanQuestion_normalized (question : String) :
    normalizedQuestion (cleanQuestion question) = true := by
  have hlast : (if pyEndsWith "?" (pyStrip question) then pyStrip question
      else pyStrip question ++ "?").data.getLast? = some '?' := by
    cases h : pyEndsWith "?" (pyStrip question) with
    | true => simpa [h] using (pyEndsWithQ_iff (pyStrip question)).mp h
    | false =>
      simp only [h, Bool.false_eq_true, if_false]
      rw [string_data_append]
      exact List.getLast?_concat _
  have hdrop := dropWhile_keeps_last (fun c => enumStripChars.contains c) '?'
    (by decide) _ hlast
  exact normalizedQuestion_of _ hdrop.1 hdrop.2

theorem processQuestionsLoop_eq (saveOk : String → Bool) (raw : List String) :
    processQuestionsLoop saveOk raw = raw.filterMap (questionLoopAccept saveOk) := by
  have h := foldl_opt_append
    (fun acc question =>
      if questionAccepted question then
        if saveOk (cleanQuestion question) then acc ++ [cleanQuestion question] else acc
      else acc)
    (questionLoopAccept saveOk)
    (by
      intro acc x
      unfold questionLoopAccept
      cases h1 : questionAccepted x <;> cases h2 : saveOk (cleanQuestion x) <;>
        simp [h1, h2, Option.toList])
  exact h raw []

theorem innerLogBlock_no_tid (env : CollectEnv) : innerLogBlock env false = (.ok (), []) := by
  unfold innerLogBlock handleInnerFail
  cases env.saveLog <;> simp

/-- When a topic string is passed explicitly (as every caller in the
run-for-a-submitted-topic flow does), `collect_data` performs no Topic
status writes at all. -/
theorem collect_data_some_topic_no_writes (env : CollectEnv) (t : String) :
    (collect_data env (some t)).2 = [] := by
  unfold collect_data collectHandler collectTryBody
  simp only [resolveTopic, strTruthy, Bool.and_false]
  rw [innerLogBlock_no_tid]
  cases fetchArticles env (some t) <;> simp

theorem run_questions_eq_concatMap (qs : List (String × QuestionEnv)) :
    run_questions qs = concatMap questionContribution (pyEnumerate 1 qs) := by
  have h := foldl_step_append
    (fun acc p =>
      if p.2.1.isEmpty then acc
      else
        match processQuestionBody p.2.2 with
        | .ok bullets =>
          acc ++ (("\nQuestion " ++ toString p.1 ++ ": " ++ p.2.1) ::
            "Findings:" :: (bullets ++ ["\n"]))
        | .error _ => acc)
    questionContribution
    (by
      intro acc x
      unfold questionContribution
      cases h1 : x.2.1.isEmpty with
      | true => simp [h1]
      | false =>
        cases h2 : processQuestionBody x.2.2 with
        | ok bullets => simp [h1, h2]
        | error e => simp [h1, h2])
    (pyEnumerate 1 qs) []
  exact h

theorem extractHeadings_eq (content : String) :
    extractHeadings content =
      ((pySplitNL content).filter (fun l => pyStartsWith "#" l)).map
        (pyStripChars headingStripChars) := by
  unfold extractHeadings
  have h := foldl_opt_append
    (fun acc line =>
      if pyStartsWith "#" line then acc ++ [pyStripChars headingStripChars line]
      else acc)
    (fun line =>
      if pyStartsWith "#" line then some (pyStripChars headingStripChars line) else none)
    (by
      intro acc x
      cases hx : pyStartsWith "#" x <;> simp [hx, Option.toList])
    (pySplitNL content) []
  rw [h, filterMap_ite]
  simp

/-! ## Claim theorems -/

/-- Claim C3, counterexample: the claimed per-line rule "a line is a
bullet iff, after trimming, it starts with `-` or `•`" fails on the
input consisting of the single line `-`: that line trims to a string
starting with `-`, yet the code accepts no bullet from it (the text left
after stripping the markers is empty), and the full parse returns `["-"]`
via the fallback, while the claimed rule would return `[""]`. -/
theorem bullet_rule_counterexample :
    acceptedBullets (pySplitNL "-") = [] ∧
    pyStartsWith "-" (pyStrip "-") = true ∧
    specParseBulletPoints "-" = [""] ∧
    parseBulletPoints "-" = ["-"] ∧
    specParseBulletPoints "-" ≠ parseBulletPoints "-" := by
  refine ⟨by decide, by decide, by decide, by decide, by decide⟩

/-- Claim C3 (amended): parsing `"- a\n- b\n"` yields `["a","b"]`;
parsing `"a\nb"` yields `["a","b"]` via the fallback; parsing `""` yields
the single fixed placeholder bullet; and in general a line is accepted as
a bullet iff, after trimming, it starts with `-` or `•` AND stripping the
leading bullet markers and surrounding whitespace leaves non-empty text,
the stripped text being what is accepted. -/
theorem bullet_parsing_amended :
    parseBulletPoints "- a\n- b\n" = ["a", "b"] ∧
    parseBulletPoints "a\nb" = ["a", "b"] ∧
    parseBulletPoints "" = [bulletPlaceholder] ∧
    ∀ raw : List String, acceptedBullets raw = raw.filterMap codeBulletAccept := by
  refine ⟨by decide, by decide, by decide, acceptedBullets_eq_filterMap⟩

/-- Claim C4: every question returned by question generation — whether
from the model-response processing loop or from the total-failure
fallback list — ends with `?` and has no leading enumeration character
(digit, dot, dash or space). -/
theorem generated_questions_normalized (saveOk : String → Bool)
    (modelResult : Except String String) (q : String)
    (hq : q ∈ generate_questions saveOk modelResult) :
    normalizedQuestion q = true := by
  cases modelResult with
  | error e =>
    have h : ∀ x ∈ defaultQuestions, normalizedQuestion x = true := by decide
    exact h q hq
  | ok content =>
    simp only [generate_questions] at hq
    rw [processQuestionsLoop_eq] at hq
    rcases List.mem_filterMap.mp hq with ⟨a, _, hfa⟩
    unfold questionLoopAccept at hfa
    by_cases hc : (questionAccepted a && saveOk (cleanQuestion a)) = true
    · rw [if_pos hc] at hfa
      injection hfa with hfa
      rw [← hfa]
      exact cleanQuestion_normalized a
    · rw [if_neg hc] at hfa
      simp at hfa

/-- Witness for C4 at a concrete model response. -/
theorem generated_questions_normalized_witness :
    ("How?" ∈ generate_questions (fun _ => true) (.ok "How?")) ∧
      normalizedQuestion "How?" = true :=
  ⟨by decide, generated_questions_normalized (fun _ => true) (.ok "How?") "How?" (by decide)⟩

/-- Claim C8: when the question-generation model call throws, the
operation does not raise but returns the fixed fallback sequence of
exactly three generic questions. -/
theorem question_generation_failure_fallback (saveOk : String → Bool) (e : String) :
    generate_questions saveOk (.error e) = defaultQuestions ∧ defaultQuestions.length = 3 :=
  ⟨rfl, rfl⟩

/-- Claim C5: the version-2 (revised) plan is produced by re-submitting
only the question.  For two runs whose model-response functions agree on
the question-only plan prompt (but may differ arbitrarily elsewhere, in
particular on every feedback prompt), the revision prompt and the revised
plan text are identical. -/
theorem revision_prompt_ignores_feedback (llm1 llm2 : String → String) (s1 s2 : Bool)
    (p1 p2 q : String)
    (hagree : llm1 (answerPlanPrompt q) = llm2 (answerPlanPrompt q)) :
    (create_answer_plan llm1 s1 p1 q 2).prompt = answerPlanPrompt q ∧
    (create_answer_plan llm2 s2 p2 q 2).prompt = answerPlanPrompt q ∧
    (create_answer_plan llm1 s1 p1 q 2).plan_text =
      (create_answer_plan llm2 s2 p2 q 2).plan_text :=
  ⟨rfl, rfl, hagree⟩

/-- Witness for C5: two concrete model functions that differ on the
feedback prompt but agree on the plan prompt give the same revised plan. -/
theorem revision_prompt_ignores_feedback_witness :
    ((fun _ => "plan-A") : String → String) (answerPlanPrompt "Q") =
      ((fun p => if p = answerPlanPrompt "Q" then "plan-A" else "other") : String → String)
        (answerPlanPrompt "Q") ∧
    ((fun p => if p = answerPlanPrompt "Q" then "plan-A" else "other") : String → String)
        (feedbackPrompt "plan-A") ≠
      ((fun _ => "plan-A") : String → String) (feedbackPrompt "plan-A") ∧
    (create_answer_plan (fun _ => "plan-A") true "p1" "Q" 2).plan_text =
      (create_answer_plan (fun p => if p = answerPlanPrompt "Q" then "plan-A" else "other")
        true "p2" "Q" 2).plan_text := by
  refine ⟨by decide, by decide, ?_⟩
  exact (revision_prompt_ignores_feedback (fun _ => "plan-A")
    (fun p => if p = answerPlanPrompt "Q" then "plan-A" else "other")
    true true "p1" "p2" "Q" (by decide)).2.2

/-- Claim C7: in the persisted French-blog document, the headings are
exactly the lines of the content beginning with `#` with the hash-space
markers stripped, the heading count is the number of such lines,
`has_headings` holds iff the count is positive, and the status is the
default "draft". -/
theorem french_blog_fields (cid content title : String) :
    (save_french_blog cid content title).headings =
      ((pySplitNL content).filter (fun l => pyStartsWith "#" l)).map
        (pyStripChars headingStripChars) ∧
    (save_french_blog cid content title).metadata.heading_count =
      List.countP (fun l => pyStartsWith "#" l) (pySplitNL content) ∧
    ((save_french_blog cid content title).metadata.has_headings = true ↔
      0 < (save_french_blog cid content title).metadata.heading_count) ∧
    (save_french_blog cid content title).status = "draft" := by
  refine ⟨extractHeadings_eq content, ?_, ?_, rfl⟩
  · show (extractHeadings content).length = _
    rw [extractHeadings_eq, List.length_map, List.countP_eq_length_filter]
  · show decide ((extractHeadings content).length > 0) = true ↔
      0 < (extractHeadings content).length
    exact decide_eq_true_iff

/-- Claim C10: for a `parent_type` outside the fixed enumeration the
tip-sheet save inserts nothing and returns the same `None` a successful
call returns, so the caller cannot distinguish the two; and the
tip-sheet generator's default `parent_type` "analysis" is outside the
enumeration. -/
theorem tip_sheet_invalid_parent_type_silent (id pid ptype : String) (pts : List String)
    (h : validTipSheetParentTypes.contains ptype = false) :
    (save_tip_sheet_to_mongodb id pid ptype pts).inserted = none ∧
    (∀ id2 pid2 pt2 pts2,
      (save_tip_sheet_to_mongodb id pid ptype pts).returned =
        (save_tip_sheet_to_mongodb id2 pid2 pt2 pts2).returned) ∧
    validTipSheetParentTypes.contains generateTipSheetDefaultParentType = false := by
  refine ⟨?_, ?_, by decide⟩
  · unfold save_tip_sheet_to_mongodb
    rw [h]
    rfl
  · intro id2 pid2 pt2 pts2
    unfold save_tip_sheet_to_mongodb
    rw [h]
    cases hc : validTipSheetParentTypes.contains pt2 <;> simp [hc]

/-- Witness for C10 at the generator's default parent type. -/
theorem tip_sheet_invalid_parent_type_silent_witness :
    validTipSheetParentTypes.contains "analysis" = false ∧
    (save_tip_sheet_to_mongodb "tid" "pid" "analysis" ["tip"]).inserted = none :=
  ⟨by decide,
    (tip_sheet_invalid_parent_type_silent "tid" "pid" "analysis" ["tip"] (by decide)).1⟩

/-- Claim C6: a question whose per-question pipeline raises is caught by
the per-question handler, contributes nothing to the aggregated findings,
and the loop continues: the findings of the whole loop are exactly the
concatenation of the contributions of the preceding and following
questions (at their original enumeration indices). -/
theorem failed_question_isolated (pre post : List (String × QuestionEnv))
    (q : String) (env : QuestionEnv) (e : String)
    (hfail : processQuestionBody env = .error e) :
    questionContribution (pre.length + 1, (q, env)) = [] ∧
    run_questions (pre ++ (q, env) :: post) =
      concatMap questionContribution (pyEnumerate 1 pre) ++
        concatMap questionContribution (pyEnumerate (pre.length + 2) post) := by
  have hzero : ∀ i, questionContribution (i, (q, env)) = [] := by
    intro i
    unfold questionContribution
    cases hq : q.isEmpty with
    | true => simp [hq]
    | false => simp [hq, hfail]
  refine ⟨hzero _, ?_⟩
  rw [run_questions_eq_concatMap]
  have hsplit : pre ++ (q, env) :: post = (pre ++ [(q, env)]) ++ post := by simp
  rw [hsplit, pyEnumerate_append, pyEnumerate_append, concatMap_append, concatMap_append]
  have h1 : (1 : Nat) + pre.length = pre.length + 1 := Nat.add_comm 1 _
  have h2 : (1 : Nat) + (pre ++ [(q, env)]).length = pre.length + 2 := by
    simp [List.length_append]
    omega
  rw [h1, h2]
  simp [pyEnumerate, concatMap, hzero]

/-- Witness for C6: with the first question's plan-drafting model call
throwing, the loop output consists of the second question's contribution
alone. -/
theorem failed_question_isolated_witness :
    processQuestionBody qEnvFail = .error "model down" ∧
    run_questions [("q1", qEnvFail), ("q2", qEnvOk)] =
      concatMap questionContribution (pyEnumerate 1 ([] : List (String × QuestionEnv))) ++
        concatMap questionContribution (pyEnumerate 2 [("q2", qEnvOk)]) :=
  ⟨rfl, (failed_question_isolated [] [("q2", qEnvOk)] "q1" qEnvFail "model down" rfl).2⟩

/-- Claim C2, counterexample: `collect_data` CAN raise past its boundary.
With a pending topic adopted, a throwing article fetch and a document
store whose Topic status update also throws, the unguarded
`update_search_topic_status` call inside the outer `except` handler
escapes, so the collector raises instead of returning the fallback
payload. -/
theorem collect_data_can_raise :
    (collect_data collectFailEnv none).1 = .error "db down" := rfl

/-- Claim C2 (amended): for every input, whenever the body of the
collect operation fails with some exception AND the Topic status update
performed in the error handler does not itself raise (in particular
whenever no pending topic was adopted), `collect_data` returns the
freshly drawn second uuid together with a payload whose articles list is
empty and whose message contains the error text. -/
theorem collect_data_failure_payload (env : CollectEnv) (topicArg : Option String) (e : String)
    (hupd : env.updateStatus "failed" = .ok ())
    (hbody : (collectTryBody env (resolveTopic env topicArg).1 (resolveTopic env topicArg).2).1
      = .error e) :
    (collect_data env topicArg).1 =
      .ok (env.uuid2,
        { output := [], message := "Error collecting data: " ++ e, articles := [] }) ∧
    pyContains e ("Error collecting data: " ++ e) = true := by
  constructor
  · unfold collect_data collectHandler
    rw [hbody]
    cases htid : (strTruthy (resolveTopic env topicArg).1 &&
        strTruthy (resolveTopic env topicArg).2) with
    | true => simp [hupd]
    | false => simp
  · have h1 : e.data <:+: ("Error collecting data: " : String).data ++ e.data :=
      (List.suffix_append _ _).isInfix
    unfold pyContains
    rw [string_data_append, decide_eq_true_eq]
    exact h1

/-- Witness for C2 (amended) at a concrete healthy-store environment
whose fetch throws. -/
theorem collect_data_failure_payload_witness :
    collectOkEnv.updateStatus "failed" = .ok () ∧
    (collectTryBody collectOkEnv (resolveTopic collectOkEnv (some "x")).1
      (resolveTopic collectOkEnv (some "x")).2).1 = .error "net down" ∧
    (collect_data collectOkEnv (some "x")).1 =
      .ok (collectOkEnv.uuid2,
        { output := [], message := "Error collecting data: " ++ "net down", articles := [] }) :=
  ⟨rfl, rfl, (collect_data_failure_payload collectOkEnv (some "x") "net down" rfl rfl).1⟩

/-- Claim C1: for a run driven by `process_topic` (which always passes
the topic string to the collector, so the collector performs no Topic
status writes), the Topic record created as "pending" receives exactly
one further status write, a terminal one — "completed" or "failed" — and
the full status sequence is a subsequence of
pending → processing → completed or of pending → processing → failed. -/
theorem topic_status_single_terminal_write (wf : Except String String) (t ttext : String)
    (env : CollectEnv) :
    (collect_data env (some ttext)).2 = [] ∧
    ((process_topic wf consistentReread (save_search_topic t)).writes = ["completed"] ∨
      (process_topic wf consistentReread (save_search_topic t)).writes = ["failed"]) ∧
    (List.Sublist
        ("pending" :: (process_topic wf consistentReread (save_search_topic t)).writes)
        ["pending", "processing", "completed"] ∨
      List.Sublist
        ("pending" :: (process_topic wf consistentReread (save_search_topic t)).writes)
        ["pending", "processing", "failed"]) := by
  have hw : (process_topic wf consistentReread (save_search_topic t)).writes = ["completed"] ∨
      (process_topic wf consistentReread (save_search_topic t)).writes = ["failed"] := by
    cases wf with
    | error e => right; rfl
    | ok cid =>
      unfold process_topic
      cases h : cid.isEmpty with
      | true => right; simp [h, processTopicFailPath]
      | false =>
        left
        simp [h, consistentReread, applyCompletedPatch]
  refine ⟨collect_data_some_topic_no_writes env ttext, hw, ?_⟩
  rcases hw with h | h <;> rw [h]
  · left; decide
  · right; decide

/-- Claim C9: after the success-path update, the orchestrator re-reads
the record; whenever the re-read finds a record whose status is not
"completed", it raises "Failed to update topic status", which drives the
failure path: status "failed" is written and the error is re-raised. -/
theorem verify_mismatch_raises (cid : String) (rec0 : TopicRec)
    (reread : TopicRec → Option TopicRec) (ut : TopicRec)
    (hcid : cid.isEmpty = false)
    (hre : reread (applyCompletedPatch cid rec0) = some ut)
    (hst : ut.status ≠ "completed") :
    (process_topic (.ok cid) reread rec0).outcome = .error "Failed to update topic status" ∧
    (process_topic (.ok cid) reread rec0).record =
      applyFailedPatch "Failed to update topic status" (applyCompletedPatch cid rec0) ∧
    (process_topic (.ok cid) reread rec0).writes = ["completed", "failed"] := by
  unfold process_topic
  simp only [hcid, Bool.false_eq_true, if_false]
  rw [hre]
  simp [hst, processTopicFailPath]

/-- Witness for C9: a store disturbed between write and re-read (the
re-read observes a still-"pending" record) makes the run fail. -/
theorem verify_mismatch_raises_witness :
    ("c1" : String).isEmpty = false ∧
    (save_search_topic "t").status ≠ "completed" ∧
    (process_topic (.ok "c1") (fun _ => some (save_search_topic "t"))
      (save_search_topic "t")).outcome = .error "Failed to update topic status" :=
  ⟨by decide, by decide,
    (verify_mismatch_raises "c1" (save_search_topic "t")
      (fun _ => some (save_search_topic "t")) (save_search_topic "t")
      (by decide) rfl (by decide)).1⟩

end AIAgents
